import Mathlib

/-!
Verification of the contract-driven validation engine in
`src/validate_schema.py` (class `SchemaValidator`).

The engine is embedded shallowly: a pandas `DataFrame` becomes a row count
plus an ordered list of named columns, a cell is an `Option EVal` (where
`none` is the absent/`NaN` sentinel), the parsed `data_contract.yaml`
becomes a list of `(column name, ColSpec)` pairs, and each `validate_*`
method becomes a Lean function that threads the `self.violations`
accumulator explicitly.  Python exceptions (`KeyError`) are modelled with
`Except`.  Human-readable issue strings are modelled structurally: each
`Issue` constructor is one message the source appends, carrying the data
the f-string interpolates; the textual rendering is presentation only.
-/

namespace SchemaValidator

/-- A scalar cell value of a pandas column.  Finite numbers are rationals;
`posInf`/`negInf` are the IEEE infinities `np.inf` / `-np.inf`.  `NaN` is
the null sentinel of pandas numeric columns (`isna` is true on it), so it
is modelled as the absent cell (`Option.none` at the cell level), never as
a value. -/
inductive EVal where
  | num (q : ℚ)
  | str (s : String)
  | boolean (b : Bool)
  | posInf
  | negInf
deriving DecidableEq

/-- Numeric strict order on cell values, as pandas evaluates `<` on a
numeric Series: finite rationals ordered as usual, `-inf` below and `inf`
above every finite number.  Non-numeric operands never reach the numeric
checks (pandas would raise `TypeError`); the function is `false` there. -/
def EVal.numLt : EVal → EVal → Bool
  | .num a, .num b => decide (a < b)
  | .num _, .posInf => true
  | .negInf, .num _ => true
  | .negInf, .posInf => true
  | _, _ => false

/-- Numeric `<=` on cell values (`a <= b` iff `a < b` or `a = b`). -/
def EVal.numLe (a b : EVal) : Bool := a.numLt b || a == b

/-- Implements `Series.min()` over the already-null-free value list. -/
def numMin (l : List EVal) : Option EVal :=
  l.foldl
    (fun acc v =>
      match acc with
      | none => some v
      | some m => if v.numLt m then some v else some m)
    none

/-- Implements `Series.max()` over the already-null-free value list. -/
def numMax (l : List EVal) : Option EVal :=
  l.foldl
    (fun acc v =>
      match acc with
      | none => some v
      | some m => if m.numLt v then some v else some m)
    none

/-- A pandas column: the storage dtype (the string form of `Series.dtype`,
e.g. `"int64"`, `"float64"`, `"object"`) and the cells, where `none` is an
absent value. -/
structure Column where
  dtype : String
  cells : List (Option EVal)
deriving DecidableEq

/-- A pandas DataFrame: `nrows` is `len(df)` and `cols` the named columns
in order.  The rectangular invariant (`c.cells.length = nrows` for every
column) is assumed by pandas; it is not needed by the engine itself, which
takes `len(df)` from the frame, so it is not baked into the type. -/
structure DataFrame where
  nrows : Nat
  cols : List (String × Column)
deriving DecidableEq

/-- One parsed entry of `data_contract.yaml` for a single column.  `dtype`
is `Option`al because a malformed contract may omit the required key (the
source then raises `KeyError` when it subscripts the missing dtype key);
`allow_null` models the get call with default `False`. -/
structure ColSpec where
  dtype : Option String := none
  allow_null : Bool := false
  range : Option (ℚ × ℚ) := none
  ge : Option ℚ := none
  gt : Option ℚ := none
  allowed : Option (List EVal) := none
deriving DecidableEq

/-- The `check` key of a violation dict appended to `self.violations`. -/
inductive CheckTag where
  | primary_key_global
  | primary_key_within_day
  | id_uniqueness
  | range
  | ge
  | gt
  | categorical_allowed
  | null_constraint
  | finite_numbers
deriving DecidableEq

/-- The `expected` key of a violation dict, when it carries one. -/
inductive Expected where
  | range (lo hi : ℚ)
  | ge (lo : ℚ)
  | gt (lo : ℚ)
  | allowedVals (vals : List EVal)
deriving DecidableEq

/-- One record appended to `self.violations`.  Optional/defaulted fields
model the keys that the corresponding Python dict does or does not carry
(`actual_range`, `min_found`, `problematic_days`, `unexpected_values`,
`percentage`). -/
structure Violation where
  check : CheckTag
  column : String
  violations : Nat
  expected : Option Expected := none
  actual_range : Option (Option EVal × Option EVal) := none
  min_found : Option (Option EVal) := none
  problematic_days : List (EVal × Nat) := []
  unexpected_values : List EVal := []
  percentage : Option ℚ := none
deriving DecidableEq

/-- The issue strings appended to the issues list of a result, modelled
structurally: one constructor per distinct message of the source, carrying
the interpolated data. -/
inductive Issue where
  | columnMissing (column : String)
  | allNull (column : String)
  | rangeFail (column : String) (count : Nat) (lo hi : ℚ)
  | rangeFound (lo hi : Option EVal)
  | rangeOk (column : String) (lo hi : ℚ)
  | geFail (column : String) (count : Nat) (lo : ℚ)
  | geOk (column : String) (lo : ℚ)
  | gtFail (column : String) (count : Nat) (lo : ℚ)
  | gtOk (column : String) (lo : ℚ)
  | catFail (column : String) (unexpected : List EVal)
  | rowsAffected (count : Nat)
  | catOk (column : String) (allowed : List EVal)
  | allowedNotPresent (column : String) (missing : List EVal)
  | dtypeMismatch (column : String) (expected actual : String)
  | nullFail (column : String) (count : Nat) (pct : ℚ)
  | infFail (column : String) (count : Nat)
  | allFinite
  | pkGlobalFail (count : Nat)
  | pkGlobalOk
  | pkWithinDayFail (days : List (EVal × Nat))
  | pkWithinDayOk
  | idFail (count : Nat)
  | idOk
deriving DecidableEq

/-- A result dict holding a passed flag and an ordered issue list. -/
structure CheckResult where
  passed : Bool
  issues : List Issue
deriving DecidableEq

/-- One entry of the null-statistics mapping of the nulls result. -/
structure NullStat where
  count : Nat
  percentage : ℚ
  allow_null : Bool
deriving DecidableEq

/-- The result dict of `validate_nulls`. -/
structure NullsResult where
  passed : Bool
  issues : List Issue
  null_stats : List (String × NullStat)
deriving DecidableEq

/-- The `all_results` dict produced by `validate_all`. -/
structure AllResults where
  primary_keys : CheckResult
  columns : List (String × CheckResult)
  nulls : NullsResult
  finite_numbers : CheckResult
deriving DecidableEq

/-- A raised Python exception; the only one the engine can raise under the
modelled inputs is `KeyError` (missing DataFrame column on a structural
check, or a contract entry missing the required `dtype` key). -/
inductive PyError where
  | keyError (key : String)
deriving DecidableEq

instance {ε α : Type} [DecidableEq ε] [DecidableEq α] : DecidableEq (Except ε α) := fun a b =>
  match a, b with
  | .error e, .error f =>
    if h : e = f then .isTrue (congrArg Except.error h)
    else .isFalse (fun hh => h (Except.error.inj hh))
  | .ok x, .ok y =>
    if h : x = y then .isTrue (congrArg Except.ok h)
    else .isFalse (fun hh => h (Except.ok.inj hh))
  | .error _, .ok _ => .isFalse (fun hh => Except.noConfusion hh)
  | .ok _, .error _ => .isFalse (fun hh => Except.noConfusion hh)

/-- Implements `Series.duplicated().sum()`: the number of positions whose cell already
occurred earlier in the list.  pandas also marks a repeated `NaN` as a
duplicate of an earlier `NaN`, so whole cells (`Option`s) are compared. -/
def dupCountAux (seen : List (Option EVal)) : List (Option EVal) → Nat
  | [] => 0
  | x :: xs => (if x ∈ seen then 1 else 0) + dupCountAux (x :: seen) xs

/-- Duplicate count of a cell list (see `dupCountAux`). -/
def dupCount (l : List (Option EVal)) : Nat := dupCountAux [] l

/-- Implements the per-day duplicate count (groupby on Day of the
Session_ID series, then a duplicated-sum per group):
the two columns are paired positionally, rows whose `Day` is null are
dropped (pandas `groupby` excludes null keys), and for each distinct day
the duplicate count of the session ids of that group is taken.  pandas
sorts the group keys; the engine only consumes the per-key counts and
their sum, so keys are kept here in order of last occurrence
(`List.dedup`). -/
def groupDupes (days sids : List (Option EVal)) : List (EVal × Nat) :=
  let pairs := days.zip sids
  ((days.filterMap id).dedup).map fun d =>
    (d, dupCount ((pairs.filter fun p => p.1 == some d).map Prod.snd))

/-- Implements `validate_primary_keys(df)`: global `Session_ID` uniqueness, per-`Day`
`Session_ID` uniqueness, and — only when an `id` column exists — global
`id` uniqueness.  `vs` is the incoming `self.violations` list; the
returned list is the updated accumulator.  A missing `Session_ID` or `Day`
column raises `KeyError` (the structural-fault case). -/
def validate_primary_keys (df : DataFrame) (vs : List Violation) :
    Except PyError CheckResult × List Violation :=
  match df.cols.lookup "Session_ID" with
  | none => (.error (.keyError "Session_ID"), vs)
  | some sCol =>
    let sessionDupes := dupCount sCol.cells
    let p1 : Bool := sessionDupes == 0
    let i1 : List Issue :=
      if 0 < sessionDupes then [.pkGlobalFail sessionDupes] else [.pkGlobalOk]
    let v1 : List Violation :=
      if 0 < sessionDupes then
        vs ++ [{ check := .primary_key_global, column := "Session_ID",
                 violations := sessionDupes }]
      else vs
    match df.cols.lookup "Day" with
    | none => (.error (.keyError "Day"), v1)
    | some dCol =>
      let dayDupes := groupDupes dCol.cells sCol.cells
      let wd := (dayDupes.map Prod.snd).sum
      let prob := dayDupes.filter fun p => 0 < p.2
      let p2 : Bool := p1 && (wd == 0)
      let i2 : List Issue :=
        i1 ++ (if 0 < wd then [.pkWithinDayFail prob] else [.pkWithinDayOk])
      let v2 : List Violation :=
        if 0 < wd then
          v1 ++ [{ check := .primary_key_within_day, column := "Session_ID",
                   violations := wd, problematic_days := prob }]
        else v1
      match df.cols.lookup "id" with
      | none => (.ok ⟨p2, i2⟩, v2)
      | some idCol =>
        let idDupes := dupCount idCol.cells
        if 0 < idDupes then
          (.ok ⟨false, i2 ++ [.idFail idDupes]⟩,
           v2 ++ [{ check := .id_uniqueness, column := "id", violations := idDupes }])
        else (.ok ⟨p2, i2 ++ [.idOk]⟩, v2)

/-- The offender predicate of the `range` sub-check:
`(values < min_val) | (values > max_val)`. -/
def rangeOffender (lo hi : ℚ) (v : EVal) : Bool :=
  v.numLt (.num lo) || (EVal.num hi).numLt v

/-- The offender predicate of the `ge` sub-check: `values < min_val`. -/
def geOffender (lo : ℚ) (v : EVal) : Bool := v.numLt (.num lo)

/-- The offender predicate of the `gt` sub-check: `values <= min_val`. -/
def gtOffender (lo : ℚ) (v : EVal) : Bool := v.numLe (.num lo)

/-- The range sub-check of `validate_numeric_range` (run when the rule
carries a range): pass flag,
issue messages and appended violation records. -/
def rangeSub (column : String) (values : List EVal) :
    Option (ℚ × ℚ) → Bool × List Issue × List Violation
  | none => (true, [], [])
  | some (lo, hi) =>
    let n := values.countP (rangeOffender lo hi)
    if 0 < n then
      (false,
       [.rangeFail column n lo hi, .rangeFound (numMin values) (numMax values)],
       [{ check := .range, column := column, violations := n,
          expected := some (.range lo hi),
          actual_range := some (numMin values, numMax values) }])
    else (true, [.rangeOk column lo hi], [])

/-- The ge sub-check of `validate_numeric_range` (run when the rule
carries a ge bound). -/
def geSub (column : String) (values : List EVal) :
    Option ℚ → Bool × List Issue × List Violation
  | none => (true, [], [])
  | some lo =>
    let n := values.countP (geOffender lo)
    if 0 < n then
      (false, [.geFail column n lo],
       [{ check := .ge, column := column, violations := n,
          expected := some (.ge lo), min_found := some (numMin values) }])
    else (true, [.geOk column lo], [])

/-- The gt sub-check of `validate_numeric_range` (run when the rule
carries a gt bound). -/
def gtSub (column : String) (values : List EVal) :
    Option ℚ → Bool × List Issue × List Violation
  | none => (true, [], [])
  | some lo =>
    let n := values.countP (gtOffender lo)
    if 0 < n then
      (false, [.gtFail column n lo],
       [{ check := .gt, column := column, violations := n,
          expected := some (.gt lo), min_found := some (numMin values) }])
    else (true, [.gtOk column lo], [])

/-- Implements `validate_numeric_range(df, column, spec)`: nulls are dropped first; an
all-null column is an informational (passing) condition; the three
independent sub-checks run in source order, their issues concatenated and
their violation records appended in that order, the overall flag being the
conjunction of the three. -/
def validate_numeric_range (df : DataFrame) (column : String) (spec : ColSpec)
    (vs : List Violation) : CheckResult × List Violation :=
  match df.cols.lookup column with
  | none => (⟨false, [.columnMissing column]⟩, vs)
  | some col =>
    let values := col.cells.filterMap id
    if values.length = 0 then (⟨true, [.allNull column]⟩, vs)
    else
      let r := rangeSub column values spec.range
      let g := geSub column values spec.ge
      let t := gtSub column values spec.gt
      (⟨r.1 && g.1 && t.1, r.2.1 ++ g.2.1 ++ t.2.1⟩,
       vs ++ r.2.2 ++ g.2.2 ++ t.2.2)

/-- Implements `df[column].isin(unexpected)` on one cell: a null cell is
never a member of the unexpected set. -/
def catOffender (unexpected : List EVal) : Option EVal → Bool
  | none => false
  | some v => decide (v ∈ unexpected)

/-- Implements `validate_categorical(df, column, spec)`: set difference of observed
non-null uniques against the allow-list; on a non-empty difference the
check fails and records the unexpected values plus the number of rows
whose value lies in that set; the converse difference (allowed but never
observed) is an informational message only. -/
def validate_categorical (df : DataFrame) (column : String) (spec : ColSpec)
    (vs : List Violation) : CheckResult × List Violation :=
  match df.cols.lookup column with
  | none => (⟨false, [.columnMissing column]⟩, vs)
  | some col =>
    match spec.allowed with
    | none => (⟨true, []⟩, vs)
    | some allowedRaw =>
      let allowed := allowedRaw.dedup
      let values := col.cells.filterMap id
      let uniqueValues := values.dedup
      let unexpected := uniqueValues.filter fun v => decide (v ∉ allowed)
      let missing := allowed.filter fun v => decide (v ∉ uniqueValues)
      let missIssue : List Issue :=
        if missing.isEmpty then [] else [.allowedNotPresent column missing]
      if unexpected.isEmpty then
        (⟨true, [.catOk column allowed] ++ missIssue⟩, vs)
      else
        let count := col.cells.countP (catOffender unexpected)
        (⟨false, [.catFail column unexpected, .rowsAffected count] ++ missIssue⟩,
         vs ++ [{ check := .categorical_allowed, column := column,
                  violations := count, expected := some (.allowedVals allowed),
                  unexpected_values := unexpected }])

/-- The `dtype_mapping` dict of `validate_dtype`: the storage dtypes each
contract tag accepts; `none` for a tag that is not a key of the dict. -/
def dtype_mapping (tag : String) : Option (List String) :=
  if tag = "int" then some ["int64", "int32", "int16", "int8", "Int64", "Int32"]
  else if tag = "float" then some ["float64", "float32", "Float64"]
  else if tag = "string" then some ["object", "string"]
  else if tag = "category" then some ["object", "string", "category"]
  else if tag = "bool" then some ["bool", "boolean"]
  else none

/-- Implements `validate_dtype(df, column, expected_dtype)`.  Note that the source
sets `passed = False` on a mismatch (while appending a warning-style
message), and appends nothing to `self.violations` — hence no accumulator
argument here. -/
def validate_dtype (df : DataFrame) (column : String) (expected_dtype : String) :
    CheckResult :=
  match df.cols.lookup column with
  | none => ⟨false, [.columnMissing column]⟩
  | some col =>
    match dtype_mapping expected_dtype with
    | none => ⟨true, []⟩
    | some allowedDtypes =>
      if allowedDtypes.contains col.dtype then ⟨true, []⟩
      else ⟨false, [.dtypeMismatch column expected_dtype col.dtype]⟩

/-- Implements the null count of a column (isna sum). -/
def nullCount (col : Column) : Nat := col.cells.countP fun c => c.isNone

/-- The per-column null-statistics entry: count, percentage (count divided
by the frame row count, times 100) and the allow-null flag.  Python produces a
float `nan` when `len(df) = 0` (0/0 in float arithmetic); rational
division yields `0` there, so percentage claims are stated for non-empty
frames. -/
def nullStatFor (df : DataFrame) (col : Column) (spec : ColSpec) : NullStat :=
  ⟨nullCount col, ((nullCount col : ℚ) / (df.nrows : ℚ)) * 100, spec.allow_null⟩

/-- The loop body of `validate_nulls` over the contract entries: a contract
column absent from the frame is skipped (`continue`); otherwise its null
statistics are always recorded, and when nulls are disallowed but present
the result fails and a violation carrying the percentage is appended. -/
def nullsLoop (df : DataFrame) :
    List (String × ColSpec) → NullsResult × List Violation → NullsResult × List Violation
  | [], acc => acc
  | (name, spec) :: rest, acc =>
    match df.cols.lookup name with
    | none => nullsLoop df rest acc
    | some col =>
      let stat := nullStatFor df col spec
      let acc1 : NullsResult := { acc.1 with null_stats := acc.1.null_stats ++ [(name, stat)] }
      if spec.allow_null = false ∧ 0 < stat.count then
        nullsLoop df rest
          ({ acc1 with passed := false,
                       issues := acc1.issues ++ [.nullFail name stat.count stat.percentage] },
           acc.2 ++ [{ check := .null_constraint, column := name,
                       violations := stat.count, percentage := some stat.percentage }])
      else nullsLoop df rest (acc1, acc.2)

/-- Implements `validate_nulls(df)`: iterate the contract columns with `nullsLoop`. -/
def validate_nulls (df : DataFrame) (contract : List (String × ColSpec))
    (vs : List Violation) : NullsResult × List Violation :=
  nullsLoop df contract (⟨true, [], []⟩, vs)

/-- Is a dtype string selected by `select_dtypes(include=[np.number])`? -/
def isNumericDtype (d : String) : Bool :=
  (["int8", "int16", "int32", "int64", "uint8", "uint16", "uint32", "uint64",
    "float16", "float32", "float64",
    "Int8", "Int16", "Int32", "Int64", "UInt8", "UInt16", "UInt32", "UInt64",
    "Float32", "Float64"] : List String).contains d

/-- Implements `np.isinf` on one cell: only the infinities are infinite; a null
(`NaN`) cell is not. -/
def isInfCell : Option EVal → Bool
  | some .posInf => true
  | some .negInf => true
  | _ => false

/-- Implements the per-column infinity count (isinf sum). -/
def infCount (col : Column) : Nat := col.cells.countP isInfCell

/-- The loop of `validate_finite_numbers` over the numeric columns. -/
def finiteLoop :
    List (String × Column) → CheckResult × List Violation → CheckResult × List Violation
  | [], acc => acc
  | (name, col) :: rest, acc =>
    if 0 < infCount col then
      finiteLoop rest
        (⟨false, acc.1.issues ++ [.infFail name (infCount col)]⟩,
         acc.2 ++ [{ check := .finite_numbers, column := name,
                     violations := infCount col }])
    else finiteLoop rest acc

/-- Implements `validate_finite_numbers(df)`: scan every numeric-dtype column for
infinities, independent of the contract (the function does not even
receive it). -/
def validate_finite_numbers (df : DataFrame) (vs : List Violation) :
    CheckResult × List Violation :=
  let r := finiteLoop (df.cols.filter fun c => isNumericDtype c.2.dtype) (⟨true, []⟩, vs)
  if r.1.passed then (⟨true, r.1.issues ++ [.allFinite]⟩, r.2) else r

/-- The body of the per-column loop of `validate_all` for one contract
entry: a column absent from the frame yields the failing `ColumnMissing`
result and nothing else; otherwise the required dtype key is read (raising
`KeyError` when the key is missing), the dtype check runs, the numeric
range check runs when the declared dtype is `int`/`float`, the categorical
check runs when the rule has an allow-list, and the overall flag of the
column is the conjunction of the flags of the sub-checks that ran. -/
def columnEntryCheck (df : DataFrame) (name : String) (spec : ColSpec)
    (vs : List Violation) : Except PyError CheckResult × List Violation :=
  match df.cols.lookup name with
  | none => (.ok ⟨false, [.columnMissing name]⟩, vs)
  | some _ =>
    match spec.dtype with
    | none => (.error (.keyError "dtype"), vs)
    | some dt =>
      let dres := validate_dtype df name dt
      let st1 : CheckResult × List Violation :=
        if dt = "int" ∨ dt = "float" then
          let rr := validate_numeric_range df name spec vs
          (⟨dres.passed && rr.1.passed, dres.issues ++ rr.1.issues⟩, rr.2)
        else (dres, vs)
      match spec.allowed with
      | none => (.ok st1.1, st1.2)
      | some _ =>
        let cr := validate_categorical df name spec st1.2
        (.ok ⟨st1.1.passed && cr.1.passed, st1.1.issues ++ cr.1.issues⟩, cr.2)

/-- The per-column loop of `validate_all` over the contract entries; an
exception raised by an entry aborts the loop (and with it the whole run),
keeping the violations accumulated so far. -/
def columnsLoop (df : DataFrame) :
    List (String × ColSpec) → List (String × CheckResult) × List Violation →
    Except PyError (List (String × CheckResult)) × List Violation
  | [], acc => (.ok acc.1, acc.2)
  | (name, spec) :: rest, acc =>
    match columnEntryCheck df name spec acc.2 with
    | (.error e, vsE) => (.error e, vsE)
    | (.ok r, vsOk) => columnsLoop df rest (acc.1 ++ [(name, r)], vsOk)

/-- Implements `validate_all(df)`: primary keys first, then null statistics over the
whole contract, then the finite-number scan, then the per-column checks;
results are collected into one report and all violation records are
appended to the accumulator in execution order. -/
def validate_all (df : DataFrame) (contract : List (String × ColSpec))
    (vs : List Violation) : Except PyError AllResults × List Violation :=
  match validate_primary_keys df vs with
  | (.error e, vs1) => (.error e, vs1)
  | (.ok pk, vs1) =>
    let nres := validate_nulls df contract vs1
    let fres := validate_finite_numbers df nres.2
    match columnsLoop df contract ([], fres.2) with
    | (.error e, vs4) => (.error e, vs4)
    | (.ok colsRes, vs4) => (.ok ⟨pk, colsRes, nres.1, fres.1⟩, vs4)

end SchemaValidator

namespace SchemaValidator

/-- Lemma: `validate_primary_keys` only appends to the accumulator, and
what it appends (and returns) does not depend on the prior content of the
accumulator. -/
theorem validate_primary_keys_state (df : DataFrame) (vs : List Violation) :
    validate_primary_keys df vs =
      ((validate_primary_keys df []).1, vs ++ (validate_primary_keys df []).2) := by
  unfold validate_primary_keys
  cases hS : df.cols.lookup "Session_ID" with
  | none => simp
  | some sCol =>
    dsimp only
    cases hD : df.cols.lookup "Day" with
    | none => dsimp only; split_ifs <;> simp
    | some dCol =>
      cases hI : df.cols.lookup "id" with
      | none => dsimp only; split_ifs <;> simp
      | some idCol => dsimp only; split_ifs <;> simp


/-- Lemma: `validate_numeric_range` appends a fixed delta to the accumulator. -/
theorem validate_numeric_range_state (df : DataFrame) (column : String) (spec : ColSpec)
    (vs : List Violation) :
    validate_numeric_range df column spec vs =
      ((validate_numeric_range df column spec []).1,
       vs ++ (validate_numeric_range df column spec []).2) := by
  unfold validate_numeric_range
  cases hc : df.cols.lookup column with
  | none => simp
  | some col => dsimp only; split_ifs <;> simp

/-- Lemma: `validate_categorical` appends a fixed delta to the accumulator. -/
theorem validate_categorical_state (df : DataFrame) (column : String) (spec : ColSpec)
    (vs : List Violation) :
    validate_categorical df column spec vs =
      ((validate_categorical df column spec []).1,
       vs ++ (validate_categorical df column spec []).2) := by
  unfold validate_categorical
  cases hc : df.cols.lookup column with
  | none => simp
  | some col =>
    cases ha : spec.allowed with
    | none => simp
    | some allowedRaw => dsimp only; split_ifs <;> simp

/-- Does a contract entry make the null check fail (column present, nulls
disallowed, nulls present)? -/
def nullViolates (df : DataFrame) (e : String × ColSpec) : Bool :=
  match df.cols.lookup e.1 with
  | none => false
  | some col => !e.2.allow_null && decide (0 < nullCount col)

/-- The null statistics `validate_nulls` records, one entry per contract
column present in the frame, in contract order. -/
def nullStatsOf (df : DataFrame) (l : List (String × ColSpec)) : List (String × NullStat) :=
  l.filterMap fun e => (df.cols.lookup e.1).map fun col => (e.1, nullStatFor df col e.2)

/-- The issue messages `validate_nulls` appends, in contract order. -/
def nullIssuesOf (df : DataFrame) (l : List (String × ColSpec)) : List Issue :=
  l.filterMap fun e =>
    match df.cols.lookup e.1 with
    | none => none
    | some col =>
      if e.2.allow_null = false ∧ 0 < nullCount col then
        some (.nullFail e.1 (nullCount col) (nullStatFor df col e.2).percentage)
      else none

/-- The violation records `validate_nulls` appends, in contract order. -/
def nullDeltaOf (df : DataFrame) (l : List (String × ColSpec)) : List Violation :=
  l.filterMap fun e =>
    match df.cols.lookup e.1 with
    | none => none
    | some col =>
      if e.2.allow_null = false ∧ 0 < nullCount col then
        some { check := .null_constraint, column := e.1, violations := nullCount col,
               percentage := some (nullStatFor df col e.2).percentage }
      else none

/-- Full characterization of the null-check loop. -/
theorem nullsLoop_eq (df : DataFrame) (l : List (String × ColSpec))
    (r : NullsResult) (vs : List Violation) :
    nullsLoop df l (r, vs) =
      (⟨r.passed && !(l.any (nullViolates df)),
        r.issues ++ nullIssuesOf df l,
        r.null_stats ++ nullStatsOf df l⟩,
       vs ++ nullDeltaOf df l) := by
  induction l generalizing r vs with
  | nil => simp [nullsLoop, nullIssuesOf, nullStatsOf, nullDeltaOf]
  | cons e rest ih =>
    obtain ⟨name, spec⟩ := e
    unfold nullsLoop
    cases hc : df.cols.lookup name with
    | none =>
      rw [ih]
      simp [nullIssuesOf, nullStatsOf, nullDeltaOf, nullViolates, hc]
    | some col =>
      dsimp only
      split_ifs with h
      · have h1 : spec.allow_null = false := h.1
        have h2 : 0 < nullCount col := h.2
        rw [ih]
        simp [nullIssuesOf, nullStatsOf, nullDeltaOf, nullViolates, nullStatFor, hc, h1, h2,
          List.append_assoc]
      · have h' : ¬(spec.allow_null = false ∧ 0 < nullCount col) := h
        have hb : (!spec.allow_null && decide (0 < nullCount col)) = false := by
          rcases Bool.eq_false_or_eq_true spec.allow_null with hs | hs
          · simp [hs]
          · have hnc : ¬ 0 < nullCount col := fun hp => h' ⟨hs, hp⟩
            simp [hnc]
        rw [ih]
        simp [nullIssuesOf, nullStatsOf, nullDeltaOf, nullViolates, nullStatFor, hc, h', hb]

/-- Full characterization of `validate_nulls`. -/
theorem validate_nulls_eq (df : DataFrame) (contract : List (String × ColSpec))
    (vs : List Violation) :
    validate_nulls df contract vs =
      (⟨!(contract.any (nullViolates df)),
        nullIssuesOf df contract, nullStatsOf df contract⟩,
       vs ++ nullDeltaOf df contract) := by
  unfold validate_nulls
  rw [nullsLoop_eq]
  simp

/-- The issue messages the finite-number loop appends, in column order. -/
def finiteIssuesOf (l : List (String × Column)) : List Issue :=
  l.filterMap fun c =>
    if 0 < infCount c.2 then some (.infFail c.1 (infCount c.2)) else none

/-- The violation records the finite-number loop appends, in column
order. -/
def finiteDeltaOf (l : List (String × Column)) : List Violation :=
  l.filterMap fun c =>
    if 0 < infCount c.2 then
      some { check := .finite_numbers, column := c.1, violations := infCount c.2 }
    else none

/-- Full characterization of the finite-number loop. -/
theorem finiteLoop_eq (l : List (String × Column)) (r : CheckResult) (vs : List Violation) :
    finiteLoop l (r, vs) =
      (⟨r.passed && !(l.any fun c => decide (0 < infCount c.2)),
        r.issues ++ finiteIssuesOf l⟩,
       vs ++ finiteDeltaOf l) := by
  induction l generalizing r vs with
  | nil => simp [finiteLoop, finiteIssuesOf, finiteDeltaOf]
  | cons c rest ih =>
    obtain ⟨name, col⟩ := c
    unfold finiteLoop
    dsimp only
    split_ifs with h
    · rw [ih]
      simp [finiteIssuesOf, finiteDeltaOf, h, List.append_assoc]
    · rw [ih]
      simp [finiteIssuesOf, finiteDeltaOf, h]

/-- Full characterization of `validate_finite_numbers`: its verdict is
determined by the numeric-dtype columns alone, its issues and appended
records are one per infinity-carrying numeric column. -/
theorem validate_finite_numbers_eq (df : DataFrame) (vs : List Violation) :
    validate_finite_numbers df vs =
      (⟨!((df.cols.filter fun c => isNumericDtype c.2.dtype).any fun c => decide (0 < infCount c.2)),
        finiteIssuesOf (df.cols.filter fun c => isNumericDtype c.2.dtype) ++
          (if (df.cols.filter fun c => isNumericDtype c.2.dtype).any fun c => decide (0 < infCount c.2) then
            [] else [.allFinite])⟩,
       vs ++ finiteDeltaOf (df.cols.filter fun c => isNumericDtype c.2.dtype)) := by
  unfold validate_finite_numbers
  rw [finiteLoop_eq]
  dsimp only
  by_cases h : (df.cols.filter fun c => isNumericDtype c.2.dtype).any fun c => decide (0 < infCount c.2) <;>
    simp [h]

/-- One per-column contract entry appends a fixed delta to the
accumulator. -/
theorem columnEntryCheck_state (df : DataFrame) (name : String) (spec : ColSpec)
    (vs : List Violation) :
    columnEntryCheck df name spec vs =
      ((columnEntryCheck df name spec []).1, vs ++ (columnEntryCheck df name spec []).2) := by
  unfold columnEntryCheck
  cases hc : df.cols.lookup name with
  | none => simp
  | some col =>
    cases hd : spec.dtype with
    | none => simp
    | some dt =>
      dsimp only
      cases ha : spec.allowed with
      | none =>
        split_ifs with h
        · rw [validate_numeric_range_state df name spec vs]
        · simp
      | some al =>
        split_ifs with h
        · rw [validate_numeric_range_state df name spec vs,
              validate_categorical_state df name spec
                (vs ++ (validate_numeric_range df name spec []).2),
              validate_categorical_state df name spec
                (validate_numeric_range df name spec []).2]
          simp
        · rw [validate_categorical_state df name spec vs]

/-- The per-column loop of `validate_all`, restarted from empty
accumulators: the canonical form every run of the loop reduces to. -/
def colsPure (df : DataFrame) : List (String × ColSpec) →
    Except PyError (List (String × CheckResult)) × List Violation
  | [] => (.ok [], [])
  | (name, spec) :: rest =>
    let ec := columnEntryCheck df name spec []
    match ec.1 with
    | .error e => (.error e, ec.2)
    | .ok r =>
      let tail := colsPure df rest
      (tail.1.map fun lst => (name, r) :: lst, ec.2 ++ tail.2)

/-- Full characterization of the per-column loop in terms of `colsPure`. -/
theorem columnsLoop_eq (df : DataFrame) (l : List (String × ColSpec))
    (a : List (String × CheckResult)) (vs : List Violation) :
    columnsLoop df l (a, vs) =
      ((colsPure df l).1.map fun lst => a ++ lst, vs ++ (colsPure df l).2) := by
  induction l generalizing a vs with
  | nil => simp [columnsLoop, colsPure, Except.map]
  | cons e rest ih =>
    obtain ⟨name, spec⟩ := e
    unfold columnsLoop colsPure
    dsimp only
    rw [columnEntryCheck_state df name spec vs]
    rcases hE : columnEntryCheck df name spec [] with ⟨ee, dd⟩
    cases ee with
    | error e => simp [Except.map]
    | ok r =>
      dsimp only
      rw [ih]
      rcases hT : (colsPure df rest).1 with e2 | lst2 <;>
        simp [Except.map, List.append_assoc]


/-- Lemma: `validate_all` only appends to the violations accumulator; both
the returned report and the appended records are independent of the prior
content of the accumulator. -/
theorem validate_all_state (df : DataFrame) (contract : List (String × ColSpec))
    (vs : List Violation) :
    validate_all df contract vs =
      ((validate_all df contract []).1, vs ++ (validate_all df contract []).2) := by
  unfold validate_all
  rw [validate_primary_keys_state df vs]
  rcases hP : validate_primary_keys df [] with ⟨pe, pd⟩
  dsimp only
  cases pe with
  | error e => simp
  | ok pk =>
    simp only [validate_nulls_eq, validate_finite_numbers_eq, columnsLoop_eq]
    rcases hC : (colsPure df contract).1 with e | lst <;>
      simp [Except.map, List.append_assoc]


/-- C4: validating the same (dataset, contract) pair twice is idempotent:
the second run (started from the accumulator state the first run left on
the validator) returns exactly the same report — same per-column results,
same counts — and appends exactly the same violation records in the same
order as the first run did. -/
theorem validate_all_idempotent (df : DataFrame) (contract : List (String × ColSpec)) :
    validate_all df contract (validate_all df contract []).2 =
      ((validate_all df contract []).1,
       (validate_all df contract []).2 ++ (validate_all df contract []).2) :=
  validate_all_state df contract (validate_all df contract []).2

/-- C10: a dtype tag that is not one of `int`, `float`, `string`,
`category`, `bool` is not a key of `dtype_mapping`, and the dtype check on
a column present in the dataset then returns `passed = true` with no
issues: unrecognized tags are silently accepted. -/
theorem validate_dtype_unknown_tag (df : DataFrame) (column : String) (col : Column)
    (tag : String) (hcol : df.cols.lookup column = some col)
    (htag : ¬ tag ∈ (["int", "float", "string", "category", "bool"] : List String)) :
    dtype_mapping tag = none ∧ validate_dtype df column tag = ⟨true, []⟩ := by
  have hm : dtype_mapping tag = none := by
    simp only [List.mem_cons, List.not_mem_nil, or_false, not_or] at htag
    obtain ⟨h1, h2, h3, h4, h5⟩ := htag
    simp [dtype_mapping, h1, h2, h3, h4, h5]
  exact ⟨hm, by simp [validate_dtype, hcol, hm]⟩

theorem validate_dtype_unknown_tag_witness :
    dtype_mapping "datetime64" = none ∧
      validate_dtype ⟨1, [("ts", ⟨"datetime64", [none]⟩)]⟩ "ts" "datetime64" = ⟨true, []⟩ :=
  validate_dtype_unknown_tag ⟨1, [("ts", ⟨"datetime64", [none]⟩)]⟩ "ts"
    ⟨"datetime64", [none]⟩ "datetime64" (by decide) (by decide)

/-- C1 (amended): when the dtype check finds the storage dtype of the
column incompatible with a recognized expected tag, it records the
mismatch as an issue AND sets `passed = false`, and `validate_all`
propagates that to the overall verdict of the column (the source is not
lenient here; it merely skips the violations append for dtype
mismatches). -/
theorem validate_dtype_mismatch_fails (df : DataFrame) (column : String) (col : Column)
    (expected : String) (allowedD : List String)
    (hcol : df.cols.lookup column = some col)
    (hmap : dtype_mapping expected = some allowedD)
    (hnot : allowedD.contains col.dtype = false) :
    validate_dtype df column expected =
      ⟨false, [.dtypeMismatch column expected col.dtype]⟩ ∧
    ∀ spec vs r vsO, spec.dtype = some expected →
      columnEntryCheck df column spec vs = (.ok r, vsO) → r.passed = false := by
  have hnm : col.dtype ∉ allowedD := by simpa using hnot
  have h1 : validate_dtype df column expected =
      ⟨false, [.dtypeMismatch column expected col.dtype]⟩ := by
    simp [validate_dtype, hcol, hmap, hnot, hnm]
  refine ⟨h1, ?_⟩
  intro spec vs r vsO hdt hec
  unfold columnEntryCheck at hec
  rw [hcol, hdt] at hec
  dsimp only at hec
  rw [h1] at hec
  cases ha : spec.allowed with
  | none =>
    rw [ha] at hec
    dsimp only at hec
    split_ifs at hec with hnum
    all_goals
      injection hec with hfst hsnd
      injection hfst with hok
      subst hok
      simp
  | some al =>
    rw [ha] at hec
    dsimp only at hec
    split_ifs at hec with hnum
    all_goals
      injection hec with hfst hsnd
      injection hfst with hok
      subst hok
      simp


/-- A contract entry whose column is absent from the frame yields the
failing `ColumnMissing` result, touches nothing else, and cannot raise. -/
theorem columnEntryCheck_missing (df : DataFrame) (name : String) (spec : ColSpec)
    (vs : List Violation) (habs : df.cols.lookup name = none) :
    columnEntryCheck df name spec vs = (.ok ⟨false, [.columnMissing name]⟩, vs) := by
  unfold columnEntryCheck
  rw [habs]

/-- Unfolding `colsPure` over a cons whose entry raises. -/
theorem colsPure_cons_error (df : DataFrame) (name : String) (spec : ColSpec)
    (rest : List (String × ColSpec)) (er : PyError) (d : List Violation)
    (hE : columnEntryCheck df name spec [] = (.error er, d)) :
    colsPure df ((name, spec) :: rest) = (.error er, d) := by
  rw [colsPure]
  rw [hE]

/-- Unfolding `colsPure` over a cons whose entry returns a result. -/
theorem colsPure_cons_ok (df : DataFrame) (name : String) (spec : ColSpec)
    (rest : List (String × ColSpec)) (r : CheckResult) (d : List Violation)
    (hE : columnEntryCheck df name spec [] = (.ok r, d)) :
    colsPure df ((name, spec) :: rest) =
      ((colsPure df rest).1.map fun lst => (name, r) :: lst, d ++ (colsPure df rest).2) := by
  rw [colsPure]
  rw [hE]

/-- A contract entry with a missing `dtype` key for a present column makes
the per-column loop raise a KeyError for the dtype key at that entry. -/
theorem colsPure_head_error (df : DataFrame) (name : String) (spec : ColSpec)
    (rest : List (String × ColSpec)) (col : Column)
    (hc : df.cols.lookup name = some col) (hdt : spec.dtype = none) :
    colsPure df ((name, spec) :: rest) = (.error (.keyError "dtype"), []) := by
  have hE : columnEntryCheck df name spec [] = (.error (.keyError "dtype"), []) := by
    unfold columnEntryCheck
    rw [hc, hdt]
  exact colsPure_cons_error df name spec rest _ _ hE

/-- If every entry of an initial contract segment that lacks `dtype`
refers to an absent column, the per-column loop gets through that segment
without raising. -/
theorem colsPure_ok_of (df : DataFrame) (l : List (String × ColSpec))
    (hok : ∀ e ∈ l, e.2.dtype = none → df.cols.lookup e.1 = none) :
    ∃ a, (colsPure df l).1 = .ok a := by
  induction l with
  | nil => exact ⟨[], rfl⟩
  | cons e rest ih =>
    obtain ⟨name, spec⟩ := e
    obtain ⟨a, ha⟩ := ih fun x hx => hok x (List.mem_cons_of_mem _ hx)
    have hentry : ∃ r, (columnEntryCheck df name spec []).1 = .ok r := by
      unfold columnEntryCheck
      cases hc : df.cols.lookup name with
      | none => exact ⟨_, rfl⟩
      | some col =>
        cases hdt : spec.dtype with
        | none =>
          have habs := hok (name, spec) (List.mem_cons_self _ _) hdt
          rw [habs] at hc
          cases hc
        | some dt =>
          dsimp only
          cases ha2 : spec.allowed <;> exact ⟨_, rfl⟩
    obtain ⟨r, hr⟩ := hentry
    have hE : columnEntryCheck df name spec [] = (.ok r, (columnEntryCheck df name spec []).2) := by
      rw [← hr]
    rw [colsPure_cons_ok df name spec rest r _ hE, ha]
    exact ⟨(name, r) :: a, rfl⟩

/-- With the two structural key columns present, the primary-key check does
not raise. -/
theorem validate_primary_keys_ok (df : DataFrame) (vs : List Violation)
    (hS : (df.cols.lookup "Session_ID").isSome) (hD : (df.cols.lookup "Day").isSome) :
    ∃ r, (validate_primary_keys df vs).1 = Except.ok r := by
  obtain ⟨sCol, hs⟩ := Option.isSome_iff_exists.mp hS
  obtain ⟨dCol, hd⟩ := Option.isSome_iff_exists.mp hD
  unfold validate_primary_keys
  rw [hs, hd]
  dsimp only
  cases hI : df.cols.lookup "id" with
  | none => exact ⟨_, rfl⟩
  | some idCol =>
    dsimp only
    split_ifs <;> exact ⟨_, rfl⟩

/-- The per-column loop distributes over contract concatenation. -/
theorem colsPure_append (df : DataFrame) (l₁ l₂ : List (String × ColSpec)) :
    colsPure df (l₁ ++ l₂) =
      (match (colsPure df l₁).1 with
       | .error _ => colsPure df l₁
       | .ok a₁ => ((colsPure df l₂).1.map fun lst => a₁ ++ lst,
                    (colsPure df l₁).2 ++ (colsPure df l₂).2)) := by
  induction l₁ with
  | nil =>
    show colsPure df l₂ = _
    rcases hx : colsPure df l₂ with ⟨x1, x2⟩
    cases x1 <;> simp [colsPure, Except.map]
  | cons e l₁ ih =>
    obtain ⟨name, spec⟩ := e
    rcases hE : columnEntryCheck df name spec [] with ⟨ee, dd⟩
    cases ee with
    | error er =>
      rw [List.cons_append, colsPure_cons_error df name spec (l₁ ++ l₂) er dd hE,
          colsPure_cons_error df name spec l₁ er dd hE]
    | ok r =>
      rw [List.cons_append, colsPure_cons_ok df name spec (l₁ ++ l₂) r dd hE,
          colsPure_cons_ok df name spec l₁ r dd hE, ih]
      rcases h1 : (colsPure df l₁).1 with e1 | a1 <;>
        rcases h2 : (colsPure df l₂).1 with e2 | a2 <;>
          simp [Except.map, h1, h2, List.append_assoc]


/-- C2 (amended): a contract entry missing the required `dtype` key whose
column IS present in the dataset makes `validate_all` raise
a KeyError for the dtype key when the per-column loop reaches it — the run aborts
and no report is returned (entries before it may have been processed;
entries missing `dtype` whose columns are absent are skipped before the
`dtype` access and do not raise). -/
theorem validate_all_missing_dtype_raises (df : DataFrame) (c₁ c₂ : List (String × ColSpec))
    (name : String) (spec : ColSpec) (vs : List Violation)
    (hS : (df.cols.lookup "Session_ID").isSome) (hD : (df.cols.lookup "Day").isSome)
    (hpre : ∀ e ∈ c₁, e.2.dtype = none → df.cols.lookup e.1 = none)
    (hname : (df.cols.lookup name).isSome) (hdt : spec.dtype = none) :
    (validate_all df (c₁ ++ (name, spec) :: c₂) vs).1 = .error (.keyError "dtype") := by
  obtain ⟨col, hcol⟩ := Option.isSome_iff_exists.mp hname
  obtain ⟨a₁, ha₁⟩ := colsPure_ok_of df c₁ hpre
  unfold validate_all
  rcases hP : validate_primary_keys df vs with ⟨pe, pd⟩
  obtain ⟨pkr, hpk⟩ := validate_primary_keys_ok df vs hS hD
  rw [hP] at hpk
  dsimp only at hpk
  subst hpk
  dsimp only
  rw [columnsLoop_eq, colsPure_append, ha₁]
  dsimp only
  rw [colsPure_head_error df name spec c₂ col hcol hdt]
  dsimp only [Except.map]

def dfC2 : DataFrame :=
  ⟨2, [("Session_ID", ⟨"int64", [some (.num 1), some (.num 2)]⟩),
       ("Day", ⟨"int64", [some (.num 1), some (.num 1)]⟩),
       ("b", ⟨"int64", [some (.num 3), some (.num 4)]⟩),
       ("c", ⟨"int64", [some (.num 5), some (.num 6)]⟩)]⟩

theorem validate_all_missing_dtype_raises_witness :
    (validate_all dfC2
        ([("zzz", { dtype := none })] ++ ("b", { dtype := none }) ::
          [("c", { dtype := some "int" })]) []).1 =
      .error (.keyError "dtype") :=
  validate_all_missing_dtype_raises dfC2 [("zzz", { dtype := none })]
    [("c", { dtype := some "int" })] "b" { dtype := none } []
    (by decide) (by decide) (by decide) (by decide) rfl

/-- C2 counterexample: on a well-formed dataset, a contract whose first
entry lacks `dtype` (for a present column `b`) makes the whole
`validate_all` run raise a KeyError for the dtype key — contrary to the claim, the
fault is fatal and the later column `c` never appears in any report. -/
theorem validate_all_missing_dtype_counterexample :
    (validate_all dfC2 [("b", { dtype := none }), ("c", { dtype := some "int" })] []).1 =
      .error (.keyError "dtype") := by decide


def dfC1 : DataFrame :=
  ⟨2, [("Session_ID", ⟨"int64", [some (.num 1), some (.num 2)]⟩),
       ("Day", ⟨"int64", [some (.num 1), some (.num 1)]⟩),
       ("a", ⟨"float64", [some (.num 1), some (.num 2)]⟩)]⟩

def specC1 : ColSpec := { dtype := some "int" }

/-- C1 counterexample: for the present column `a` stored as `float64`
under expected tag `int`, the dtype check records the mismatch issue AND
sets `passed = false`, and `validate_all` propagates `false` into the
overall verdict of the column — refuting the claim that the mismatch is
advisory only. -/
theorem dtype_mismatch_counterexample :
    (validate_dtype dfC1 "a" "int").passed = false ∧
    (validate_dtype dfC1 "a" "int").issues = [Issue.dtypeMismatch "a" "int" "float64"] ∧
    (validate_all dfC1 [("a", specC1)] []).1.map
        (fun res => (res.columns.lookup "a").map CheckResult.passed) = .ok (some false) :=
  ⟨by decide, by decide, by decide⟩

theorem validate_dtype_mismatch_fails_witness :
    validate_dtype dfC1 "a" "int" = ⟨false, [Issue.dtypeMismatch "a" "int" "float64"]⟩ ∧
    columnEntryCheck dfC1 "a" specC1 [] =
      (.ok ⟨false, [Issue.dtypeMismatch "a" "int" "float64"]⟩, []) := by
  have h := validate_dtype_mismatch_fails dfC1 "a"
    ⟨"float64", [some (.num 1), some (.num 2)]⟩ "int"
    ["int64", "int32", "int16", "int8", "Int64", "Int32"] (by decide) (by decide) (by decide)
  exact ⟨h.1, by decide⟩

def dfC3 : DataFrame := ⟨2, [("x", ⟨"float64", [none, some .posInf]⟩)]⟩

/-- C3: the finite-value checker is dtype-driven: for every numeric-dtype
column of the frame containing a non-finite (infinite) value, the check
fails and records a violation carrying the non-finite count; a null cell
is never counted as non-finite (and in the pandas data model a
non-a-number cell IS the null cell, so the non-null non-finite values are
exactly the infinities): the count over the cells equals the count over
the non-null values. -/
theorem validate_finite_numbers_nonfinite (df : DataFrame) (vs : List Violation)
    (name : String) (col : Column) (cells : List (Option EVal))
    (hmem : (name, col) ∈ df.cols) (hnum : isNumericDtype col.dtype = true)
    (hpos : 0 < infCount col) :
    (validate_finite_numbers df vs).1.passed = false ∧
    { check := CheckTag.finite_numbers, column := name, violations := infCount col } ∈
      (validate_finite_numbers df vs).2 ∧
    isInfCell none = false ∧
    cells.countP isInfCell = (cells.filterMap id).countP (fun v => isInfCell (some v)) := by
  have hf : (name, col) ∈ df.cols.filter fun c => isNumericDtype c.2.dtype :=
    List.mem_filter.mpr ⟨hmem, hnum⟩
  rw [validate_finite_numbers_eq]
  refine ⟨?_, ?_, rfl, ?_⟩
  · have hany : (df.cols.filter fun c => isNumericDtype c.2.dtype).any
        (fun c => decide (0 < infCount c.2)) = true :=
      List.any_eq_true.mpr ⟨(name, col), hf, by simpa using hpos⟩
    simp [hany]
  · refine List.mem_append.mpr (Or.inr ?_)
    refine List.mem_filterMap.mpr ⟨(name, col), hf, ?_⟩
    simp [finiteDeltaOf, hpos]
  · induction cells with
    | nil => rfl
    | cons c cs ih =>
      cases c with
      | none => simpa [List.countP_cons, isInfCell] using ih
      | some v => simp [List.countP_cons, List.filterMap_cons, ih]

theorem validate_finite_numbers_nonfinite_witness :
    (validate_finite_numbers dfC3 []).1.passed = false ∧
    { check := CheckTag.finite_numbers, column := "x", violations := 1 } ∈
      (validate_finite_numbers dfC3 []).2 ∧
    isInfCell none = false ∧
    ([none, some EVal.posInf, some (EVal.num 1)] : List (Option EVal)).countP isInfCell =
      (([none, some EVal.posInf, some (EVal.num 1)] : List (Option EVal)).filterMap id).countP
        (fun v => isInfCell (some v)) := by
  have h := validate_finite_numbers_nonfinite dfC3 [] "x" ⟨"float64", [none, some .posInf]⟩
      [none, some EVal.posInf, some (EVal.num 1)] (by decide) (by decide) (by decide)
  exact ⟨h.1, h.2.1, h.2.2.1, h.2.2.2⟩


/-- C5: bound inclusivity of the numeric checks.  The offender predicates
used by `validate_numeric_range` count exactly the values `< lo` or `> hi`
(`range`), `< lo` (`ge`), `<= lo` (`gt`); hence a value equal to a `range`
bound or to the `ge` bound is not counted, while a value equal to the `gt`
bound is counted.  The final two conjuncts tie the predicates to the
check: its verdict is `true` iff all three offender counts are zero, and
its appended records carry exactly those counts. -/
theorem validate_numeric_range_inclusivity (df : DataFrame) (column : String)
    (spec : ColSpec) (vs : List Violation) (col : Column) (lo hi g t q : ℚ)
    (hcol : df.cols.lookup column = some col)
    (hne : col.cells.filterMap id ≠ [])
    (hlh : lo ≤ hi)
    (hr : spec.range = some (lo, hi)) (hg : spec.ge = some g) (ht : spec.gt = some t) :
    rangeOffender lo hi (.num q) = decide (q < lo ∨ hi < q) ∧
    rangeOffender lo hi (.num lo) = false ∧
    rangeOffender lo hi (.num hi) = false ∧
    geOffender g (.num q) = decide (q < g) ∧
    geOffender g (.num g) = false ∧
    gtOffender t (.num q) = decide (q ≤ t) ∧
    gtOffender t (.num t) = true ∧
    ((validate_numeric_range df column spec vs).1.passed =
      (!decide (0 < (col.cells.filterMap id).countP (rangeOffender lo hi)) &&
       !decide (0 < (col.cells.filterMap id).countP (geOffender g)) &&
       !decide (0 < (col.cells.filterMap id).countP (gtOffender t)))) ∧
    (validate_numeric_range df column spec vs).2 =
      vs ++
        (if 0 < (col.cells.filterMap id).countP (rangeOffender lo hi) then
          [{ check := .range, column := column,
             violations := (col.cells.filterMap id).countP (rangeOffender lo hi),
             expected := some (.range lo hi),
             actual_range := some (numMin (col.cells.filterMap id),
                                   numMax (col.cells.filterMap id)) }]
         else []) ++
        (if 0 < (col.cells.filterMap id).countP (geOffender g) then
          [{ check := .ge, column := column,
             violations := (col.cells.filterMap id).countP (geOffender g),
             expected := some (.ge g),
             min_found := some (numMin (col.cells.filterMap id)) }]
         else []) ++
        (if 0 < (col.cells.filterMap id).countP (gtOffender t) then
          [{ check := .gt, column := column,
             violations := (col.cells.filterMap id).countP (gtOffender t),
             expected := some (.gt t),
             min_found := some (numMin (col.cells.filterMap id)) }]
         else []) := by
  have hnlt : ¬ hi < lo := not_lt.mpr hlh
  have hlen : ¬ (col.cells.filterMap id).length = 0 := by
    simpa [List.length_eq_zero] using hne
  refine ⟨?_, ?_, ?_, ?_, ?_, ?_, ?_, ?_, ?_⟩
  · by_cases hq1 : q < lo <;> by_cases hq2 : hi < q <;>
      simp [rangeOffender, EVal.numLt, hq1, hq2]
  · simp [rangeOffender, EVal.numLt, hnlt]
  · simp [rangeOffender, EVal.numLt, hnlt]
  · simp [geOffender, EVal.numLt]
  · simp [geOffender, EVal.numLt]
  · by_cases hq : q ≤ t
    · rcases lt_or_eq_of_le hq with h' | h'
      · simp [gtOffender, EVal.numLe, EVal.numLt, h', hq]
      · subst h'
        simp [gtOffender, EVal.numLe, EVal.numLt, hq]
    · have h1 : ¬ q < t := fun hh => hq hh.le
      have h2 : ¬ q = t := fun hh => hq (le_of_eq hh)
      simp [gtOffender, EVal.numLe, EVal.numLt, h1, h2, hq]
  · simp [gtOffender, EVal.numLe]
  · unfold validate_numeric_range
    rw [hcol]
    dsimp only
    rw [if_neg hlen]
    unfold rangeSub geSub gtSub
    rw [hr, hg, ht]
    dsimp only
    rcases Nat.eq_zero_or_pos ((col.cells.filterMap id).countP (rangeOffender lo hi)) with hA | hA <;>
      rcases Nat.eq_zero_or_pos ((col.cells.filterMap id).countP (geOffender g)) with hB | hB <;>
        rcases Nat.eq_zero_or_pos ((col.cells.filterMap id).countP (gtOffender t)) with hC | hC <;>
          simp [hA, hB, hC]
  · unfold validate_numeric_range
    rw [hcol]
    dsimp only
    rw [if_neg hlen]
    unfold rangeSub geSub gtSub
    rw [hr, hg, ht]
    dsimp only
    rcases Nat.eq_zero_or_pos ((col.cells.filterMap id).countP (rangeOffender lo hi)) with hA | hA <;>
      rcases Nat.eq_zero_or_pos ((col.cells.filterMap id).countP (geOffender g)) with hB | hB <;>
        rcases Nat.eq_zero_or_pos ((col.cells.filterMap id).countP (gtOffender t)) with hC | hC <;>
          simp [hA, hB, hC, List.append_assoc]

def colC5 : Column := ⟨"float64", [some (.num 5)]⟩

def dfC5 : DataFrame := ⟨1, [("p", colC5)]⟩

def specC5 : ColSpec :=
  { dtype := some "float", range := some (0, 10), ge := some 0, gt := some 0 }

theorem validate_numeric_range_inclusivity_witness :
    rangeOffender 0 10 (.num 0) = false ∧
    rangeOffender 0 10 (.num 10) = false ∧
    geOffender 0 (.num 0) = false ∧
    gtOffender 0 (.num 0) = true ∧
    (validate_numeric_range dfC5 "p" specC5 []).1.passed = true ∧
    (validate_numeric_range dfC5 "p" specC5 []).2 = [] := by
  have h := validate_numeric_range_inclusivity dfC5 "p" specC5 [] colC5 0 10 0 0 5
    rfl (by decide) (by norm_num) rfl rfl rfl
  refine ⟨h.2.1, h.2.2.1, h.2.2.2.2.1, h.2.2.2.2.2.2.1, ?_, ?_⟩
  · rw [h.2.2.2.2.2.2.2.1]
    decide
  · rw [h.2.2.2.2.2.2.2.2]
    decide


/-- The unexpected-value set of the categorical check: observed non-null
unique values minus the allow-list. -/
def unexpectedOf (col : Column) (allowedRaw : List EVal) : List EVal :=
  (col.cells.filterMap id).dedup.filter fun x => decide (x ∉ allowedRaw.dedup)

/-- C7: the categorical check fails exactly when the set difference
(observed non-null uniques) − (allowed) is non-empty; on failure the one
appended record carries that unexpected set and the count of rows whose
value lies in it; an observed non-null value is unexpected iff it is not
in the allow-list; a null cell never counts toward the row count; and the
allowed-but-never-observed note never affects the verdict (the verdict is
a function of the unexpected set alone, as the first conjunct states). -/
theorem validate_categorical_allowlist (df : DataFrame) (column : String) (spec : ColSpec)
    (vs : List Violation) (col : Column) (allowedRaw : List EVal) (v : EVal)
    (hcol : df.cols.lookup column = some col)
    (hal : spec.allowed = some allowedRaw) :
    ((validate_categorical df column spec vs).1.passed = true ↔
      unexpectedOf col allowedRaw = []) ∧
    (unexpectedOf col allowedRaw ≠ [] →
      (validate_categorical df column spec vs).2 =
        vs ++ [{ check := .categorical_allowed, column := column,
                 violations := col.cells.countP (catOffender (unexpectedOf col allowedRaw)),
                 expected := some (.allowedVals allowedRaw.dedup),
                 unexpected_values := unexpectedOf col allowedRaw }]) ∧
    (unexpectedOf col allowedRaw = [] → (validate_categorical df column spec vs).2 = vs) ∧
    (v ∈ col.cells.filterMap id →
      (v ∈ unexpectedOf col allowedRaw ↔ v ∉ allowedRaw)) ∧
    catOffender (unexpectedOf col allowedRaw) none = false ∧
    catOffender (unexpectedOf col allowedRaw) (some v) =
      decide (v ∈ unexpectedOf col allowedRaw) := by
  refine ⟨?_, ?_, ?_, ?_, rfl, rfl⟩
  · unfold validate_categorical
    rw [hcol, hal]
    dsimp only
    unfold unexpectedOf
    split_ifs with h1 h2 <;>
      simp_all [List.isEmpty_iff]
  · intro hne
    unfold validate_categorical
    rw [hcol, hal]
    dsimp only
    unfold unexpectedOf at hne ⊢
    have hfalse : ((col.cells.filterMap id).dedup.filter
        fun x => decide (x ∉ allowedRaw.dedup)).isEmpty = false := by
      rcases hl : (col.cells.filterMap id).dedup.filter
          fun x => decide (x ∉ allowedRaw.dedup) with _ | ⟨x, xs⟩
      · exact absurd hl hne
      · rfl
    have hcnot : ¬ ((List.filter (fun x => decide (x ∉ allowedRaw.dedup))
        (List.filterMap id col.cells).dedup).isEmpty = true) := by
      rw [hfalse]
      exact Bool.false_ne_true
    rw [if_neg hcnot]
  · intro heq
    unfold validate_categorical
    rw [hcol, hal]
    dsimp only
    unfold unexpectedOf at heq
    have htrue : ((col.cells.filterMap id).dedup.filter
        fun x => decide (x ∉ allowedRaw.dedup)).isEmpty = true := by
      simpa using congrArg List.isEmpty heq
    rw [if_pos htrue]
  · intro hv
    simp [unexpectedOf, List.mem_filter, List.mem_dedup, hv]

def colC7 : Column := ⟨"object", [some (.str "Mobile"), some (.str "Phone")]⟩

def dfC7 : DataFrame := ⟨2, [("device", colC7)]⟩

def specC7 : ColSpec :=
  { dtype := some "category",
    allowed := some [.str "Mobile", .str "Desktop", .str "Tablet"] }

theorem validate_categorical_allowlist_witness :
    (validate_categorical dfC7 "device" specC7 []).1.passed = false ∧
    (validate_categorical dfC7 "device" specC7 []).2 =
      [{ check := CheckTag.categorical_allowed, column := "device", violations := 1,
         expected := some (.allowedVals [.str "Mobile", .str "Desktop", .str "Tablet"]),
         unexpected_values := [.str "Phone"] }] := by
  have h := validate_categorical_allowlist dfC7 "device" specC7 [] colC7
    [.str "Mobile", .str "Desktop", .str "Tablet"] (.str "Phone") rfl rfl
  refine ⟨by decide, ?_⟩
  rw [h.2.1 (by decide)]
  decide


/-- In an association list with duplicate-free keys, a key determines its
value. -/
theorem keys_nodup_mem_eq {β : Type} :
    ∀ {l : List (String × β)}, (l.map Prod.fst).Nodup →
      ∀ {a : String} {b b' : β}, (a, b) ∈ l → (a, b') ∈ l → b = b' := by
  intro l
  induction l with
  | nil => intro _ a b b' h1; cases h1
  | cons e rest ih =>
    intro h a b b' h1 h2
    have hnd : e.1 ∉ rest.map Prod.fst ∧ (rest.map Prod.fst).Nodup :=
      List.nodup_cons.mp (by simpa using h)
    rcases List.mem_cons.mp h1 with he1 | h1r
    · rcases List.mem_cons.mp h2 with he2 | h2r
      · rw [← he1] at he2
        injection he2 with _ hbb
        exact hbb.symm
      · exfalso
        apply hnd.1
        rw [← he1]
        exact List.mem_map.mpr ⟨(a, b'), h2r, rfl⟩
    · rcases List.mem_cons.mp h2 with he2 | h2r
      · exfalso
        apply hnd.1
        rw [← he2]
        exact List.mem_map.mpr ⟨(a, b), h1r, rfl⟩
      · exact ih hnd.2 h1r h2r

/-- The null-check violation record for a column is appended exactly when
that column is present, disallows nulls, and has a positive null count. -/
theorem mem_nullDeltaOf_iff (df : DataFrame) (l : List (String × ColSpec))
    (name : String) (spec : ColSpec) (col : Column)
    (hmem : (name, spec) ∈ l) (hnodup : (l.map Prod.fst).Nodup)
    (hcol : df.cols.lookup name = some col) :
    ({ check := CheckTag.null_constraint, column := name, violations := nullCount col,
       percentage := some (nullStatFor df col spec).percentage } : Violation) ∈
        nullDeltaOf df l ↔
      (spec.allow_null = false ∧ 0 < nullCount col) := by
  constructor
  · intro hrec
    obtain ⟨e, hel, hfe⟩ := List.mem_filterMap.mp hrec
    rcases hc : df.cols.lookup e.1 with _ | col'
    · rw [hc] at hfe
      cases hfe
    · rw [hc] at hfe
      dsimp only at hfe
      split_ifs at hfe with hcond
      · injection hfe with h'
        have hcol1 : e.1 = name := congrArg Violation.column h'
        have hespec : e.2 = spec := by
          refine keys_nodup_mem_eq hnodup ?_ hmem
          rw [← hcol1]
          exact hel
        have hcc : col' = col := by
          rw [hcol1, hcol] at hc
          injection hc with hc'
          exact hc'.symm
        rw [hespec] at hcond
        rw [hcc] at hcond
        exact hcond
  · intro hok
    refine List.mem_filterMap.mpr ⟨(name, spec), hmem, ?_⟩
    rw [hcol]
    dsimp only
    rw [if_pos hok]

/-- C8: for every contract column present in the dataset, the null check
always records its null statistics — count, percentage = count divided by
the total row count of the frame (times 100), and the allow-null flag —
regardless of pass/fail; and a violation record carrying that percentage
is appended exactly when the rule disallows nulls (the default) and the
null count is positive; the overall verdict fails exactly when some
contract column violates its null policy. -/
theorem validate_nulls_policy (df : DataFrame) (l : List (String × ColSpec))
    (vs : List Violation) (name : String) (spec : ColSpec) (col : Column)
    (hmem : (name, spec) ∈ l) (hnodup : (l.map Prod.fst).Nodup)
    (hcol : df.cols.lookup name = some col) :
    (name, nullStatFor df col spec) ∈ (validate_nulls df l vs).1.null_stats ∧
    nullStatFor df col spec =
      ⟨nullCount col, (nullCount col : ℚ) / (df.nrows : ℚ) * 100, spec.allow_null⟩ ∧
    (validate_nulls df l vs).2 = vs ++ nullDeltaOf df l ∧
    ({ check := CheckTag.null_constraint, column := name, violations := nullCount col,
       percentage := some (nullStatFor df col spec).percentage } ∈ nullDeltaOf df l ↔
      (spec.allow_null = false ∧ 0 < nullCount col)) ∧
    (validate_nulls df l vs).1.passed = !(l.any (nullViolates df)) := by
  refine ⟨?_, rfl, ?_, mem_nullDeltaOf_iff df l name spec col hmem hnodup hcol, ?_⟩
  · rw [validate_nulls_eq]
    dsimp only
    exact List.mem_filterMap.mpr ⟨(name, spec), hmem, by simp [hcol]⟩
  · rw [validate_nulls_eq]
  · rw [validate_nulls_eq]

def colC8 : Column := ⟨"int64", [some (.num 1), none, some (.num 3)]⟩

def dfC8 : DataFrame := ⟨3, [("day", colC8)]⟩

def contractC8 : List (String × ColSpec) := [("day", { dtype := some "int" })]

theorem validate_nulls_policy_witness :
    ("day", (⟨1, 100 / 3, false⟩ : NullStat)) ∈
      (validate_nulls dfC8 contractC8 []).1.null_stats ∧
    (validate_nulls dfC8 contractC8 []).2 = nullDeltaOf dfC8 contractC8 ∧
    ({ check := CheckTag.null_constraint, column := "day", violations := 1,
       percentage := some (100 / 3) } : Violation) ∈ nullDeltaOf dfC8 contractC8 ∧
    (validate_nulls dfC8 contractC8 []).1.passed = false := by
  have h := validate_nulls_policy dfC8 contractC8 [] "day" { dtype := some "int" } colC8
    (by decide) (by decide) rfl
  have hstat : nullStatFor dfC8 colC8 { dtype := some "int" } =
      (⟨1, 100 / 3, false⟩ : NullStat) := by
    unfold nullStatFor nullCount colC8 dfC8
    norm_num
  refine ⟨?_, ?_, ?_, ?_⟩
  · have h1 := h.1
    rw [hstat] at h1
    exact h1
  · have h3 := h.2.2.1
    simpa using h3
  · have h4 := (h.2.2.2.1).mpr ⟨rfl, by decide⟩
    rw [hstat] at h4
    exact h4
  · rw [h.2.2.2.2]
    decide


/-- A positive count is not zero (`Nat.beq` form). -/
theorem beq_zero_of_pos {n : Nat} (h : 0 < n) : (n == 0) = false := by
  simp [Nat.pos_iff_ne_zero.mp h]

/-- C9: with the structural key columns present, the primary-key checker
returns exactly: a global `Session_ID` duplicate count (failing, with the
count recorded, when positive), a separately reported within-`Day`
duplicate count with its problematic days, and — only when an `id` column
exists — a global (and only global) `id` duplicate count; the verdict is
the conjunction of the three zero-tests. -/
theorem validate_primary_keys_spec (df : DataFrame) (vs : List Violation)
    (sCol dCol : Column)
    (hS : df.cols.lookup "Session_ID" = some sCol)
    (hD : df.cols.lookup "Day" = some dCol) :
    match df.cols.lookup "id" with
    | none =>
      validate_primary_keys df vs =
        (.ok ⟨(dupCount sCol.cells == 0) &&
                (((groupDupes dCol.cells sCol.cells).map Prod.snd).sum == 0),
              (if 0 < dupCount sCol.cells then [Issue.pkGlobalFail (dupCount sCol.cells)]
               else [Issue.pkGlobalOk]) ++
              (if 0 < ((groupDupes dCol.cells sCol.cells).map Prod.snd).sum then
                [Issue.pkWithinDayFail
                  ((groupDupes dCol.cells sCol.cells).filter fun p => 0 < p.2)]
               else [Issue.pkWithinDayOk])⟩,
         vs ++
           (if 0 < dupCount sCol.cells then
             [{ check := CheckTag.primary_key_global, column := "Session_ID",
                violations := dupCount sCol.cells }]
            else []) ++
           (if 0 < ((groupDupes dCol.cells sCol.cells).map Prod.snd).sum then
             [{ check := CheckTag.primary_key_within_day, column := "Session_ID",
                violations := ((groupDupes dCol.cells sCol.cells).map Prod.snd).sum,
                problematic_days :=
                  (groupDupes dCol.cells sCol.cells).filter fun p => 0 < p.2 }]
            else []))
    | some idCol =>
      validate_primary_keys df vs =
        (.ok ⟨(dupCount sCol.cells == 0) &&
                (((groupDupes dCol.cells sCol.cells).map Prod.snd).sum == 0) &&
                (dupCount idCol.cells == 0),
              (if 0 < dupCount sCol.cells then [Issue.pkGlobalFail (dupCount sCol.cells)]
               else [Issue.pkGlobalOk]) ++
              (if 0 < ((groupDupes dCol.cells sCol.cells).map Prod.snd).sum then
                [Issue.pkWithinDayFail
                  ((groupDupes dCol.cells sCol.cells).filter fun p => 0 < p.2)]
               else [Issue.pkWithinDayOk]) ++
              (if 0 < dupCount idCol.cells then [Issue.idFail (dupCount idCol.cells)]
               else [Issue.idOk])⟩,
         vs ++
           (if 0 < dupCount sCol.cells then
             [{ check := CheckTag.primary_key_global, column := "Session_ID",
                violations := dupCount sCol.cells }]
            else []) ++
           (if 0 < ((groupDupes dCol.cells sCol.cells).map Prod.snd).sum then
             [{ check := CheckTag.primary_key_within_day, column := "Session_ID",
                violations := ((groupDupes dCol.cells sCol.cells).map Prod.snd).sum,
                problematic_days :=
                  (groupDupes dCol.cells sCol.cells).filter fun p => 0 < p.2 }]
            else []) ++
           (if 0 < dupCount idCol.cells then
             [{ check := CheckTag.id_uniqueness, column := "id",
                violations := dupCount idCol.cells }]
            else [])) := by
  cases hI : df.cols.lookup "id" with
  | none =>
    unfold validate_primary_keys
    rw [hS, hD, hI]
    dsimp only
    rcases Nat.eq_zero_or_pos (dupCount sCol.cells) with hG | hG <;>
      rcases Nat.eq_zero_or_pos (((groupDupes dCol.cells sCol.cells).map Prod.snd).sum)
        with hW | hW <;>
        simp [hG, hW, beq_zero_of_pos, List.append_assoc]
  | some idCol =>
    unfold validate_primary_keys
    rw [hS, hD, hI]
    dsimp only
    rcases Nat.eq_zero_or_pos (dupCount sCol.cells) with hG | hG <;>
      rcases Nat.eq_zero_or_pos (((groupDupes dCol.cells sCol.cells).map Prod.snd).sum)
        with hW | hW <;>
        rcases Nat.eq_zero_or_pos (dupCount idCol.cells) with hJ | hJ <;>
          simp [hG, hW, hJ, beq_zero_of_pos, List.append_assoc]

def dfC9 : DataFrame :=
  ⟨3, [("Session_ID", ⟨"int64", [some (.num 1), some (.num 1), some (.num 2)]⟩),
       ("Day", ⟨"int64", [some (.num 1), some (.num 2), some (.num 3)]⟩)]⟩

theorem validate_primary_keys_spec_witness :
    validate_primary_keys dfC9 [] =
      (.ok ⟨false, [Issue.pkGlobalFail 1, Issue.pkWithinDayOk]⟩,
       [{ check := CheckTag.primary_key_global, column := "Session_ID",
          violations := 1 }]) := by
  have h := validate_primary_keys_spec dfC9 []
    ⟨"int64", [some (.num 1), some (.num 1), some (.num 2)]⟩
    ⟨"int64", [some (.num 1), some (.num 2), some (.num 3)]⟩ rfl rfl
  exact h


/-- The null check skips a contract entry whose column is absent: removing
it leaves the result untouched. -/
theorem validate_nulls_skip (df : DataFrame) (c₁ c₂ : List (String × ColSpec))
    (m : String) (specm : ColSpec) (vs : List Violation)
    (habs : df.cols.lookup m = none) :
    validate_nulls df (c₁ ++ (m, specm) :: c₂) vs = validate_nulls df (c₁ ++ c₂) vs := by
  rw [validate_nulls_eq, validate_nulls_eq]
  simp [nullStatsOf, nullIssuesOf, nullDeltaOf, nullViolates, List.filterMap_append,
    List.any_append, List.filterMap_cons, List.any_cons, habs]

/-- A successful per-column loop returns one result per contract entry. -/
theorem colsPure_ok_length (df : DataFrame) :
    ∀ (l : List (String × ColSpec)) (a : List (String × CheckResult)),
      (colsPure df l).1 = .ok a → a.length = l.length := by
  intro l
  induction l with
  | nil =>
    intro a h
    injection h with h'
    rw [← h']
    rfl
  | cons e rest ih =>
    intro a h
    obtain ⟨name, spec⟩ := e
    rcases hE : columnEntryCheck df name spec [] with ⟨ee, dd⟩
    cases ee with
    | error er =>
      rw [colsPure_cons_error df name spec rest er dd hE] at h
      cases h
    | ok r =>
      rw [colsPure_cons_ok df name spec rest r dd hE] at h
      dsimp only at h
      rcases hT : (colsPure df rest).1 with e2 | a2
      · rw [hT] at h
        simp [Except.map] at h
      · rw [hT] at h
        simp only [Except.map] at h
        injection h with h'
        rw [← h']
        simp [ih a2 hT]

/-- Inserting a contract entry for an absent column into the per-column
loop leaves the violations and the surrounding results untouched: the
only trace the loop keeps of it is one failing `ColumnMissing` result at
its position. -/
theorem colsPure_skip (df : DataFrame) (c₁ c₂ : List (String × ColSpec))
    (m : String) (specm : ColSpec) (habs : df.cols.lookup m = none) :
    (colsPure df (c₁ ++ (m, specm) :: c₂)).2 = (colsPure df (c₁ ++ c₂)).2 ∧
    (∀ e, (colsPure df (c₁ ++ c₂)).1 = .error e →
      (colsPure df (c₁ ++ (m, specm) :: c₂)).1 = .error e) ∧
    (∀ a, (colsPure df (c₁ ++ c₂)).1 = .ok a →
      (colsPure df (c₁ ++ (m, specm) :: c₂)).1 =
        .ok (a.take c₁.length ++
             (m, (⟨false, [Issue.columnMissing m]⟩ : CheckResult)) :: a.drop c₁.length)) := by
  have hmid : colsPure df ((m, specm) :: c₂) =
      ((colsPure df c₂).1.map
         fun lst => (m, (⟨false, [Issue.columnMissing m]⟩ : CheckResult)) :: lst,
       [] ++ (colsPure df c₂).2) :=
    colsPure_cons_ok df m specm c₂ _ _ (columnEntryCheck_missing df m specm [] habs)
  rw [colsPure_append df c₁ ((m, specm) :: c₂), colsPure_append df c₁ c₂, hmid]
  rcases h1 : (colsPure df c₁).1 with e1 | a1
  · refine ⟨rfl, ?_, ?_⟩
    · intro e he
      dsimp only at he ⊢
      exact he
    · intro a ha
      dsimp only at ha
      rw [h1] at ha
      cases ha
  · have hlen1 : a1.length = c₁.length := colsPure_ok_length df c₁ a1 h1
    dsimp only
    rcases h2 : (colsPure df c₂).1 with e2 | a2
    · refine ⟨by simp, ?_, ?_⟩
      · intro e he
        simp only [Except.map] at he ⊢
        exact he
      · intro a ha
        simp [Except.map] at ha
    · refine ⟨by simp, ?_, ?_⟩
      · intro e he
        simp [Except.map] at he
      · intro a ha
        simp only [Except.map] at ha ⊢
        injection ha with ha'
        rw [← ha']
        rw [← hlen1, List.take_left, List.drop_left]


/-- C6: a contract column absent from the dataset never crashes the run:
the full validation produces for it exactly one failing Column Result
whose sole issue is the column-missing message, positioned where the entry
sits in the contract; it appends no violation records; and every other
part of the report — primary keys, null statistics, finite check, every
result of every other column, and the violations list — is exactly what the run
without that entry produces (errors of the remaining run are likewise
unchanged). -/
theorem validate_all_missing_column (df : DataFrame) (c₁ c₂ : List (String × ColSpec))
    (m : String) (specm : ColSpec) (vs : List Violation)
    (habs : df.cols.lookup m = none) :
    (validate_all df (c₁ ++ (m, specm) :: c₂) vs).2 =
      (validate_all df (c₁ ++ c₂) vs).2 ∧
    (∀ e, (validate_all df (c₁ ++ c₂) vs).1 = .error e →
      (validate_all df (c₁ ++ (m, specm) :: c₂) vs).1 = .error e) ∧
    (∀ r, (validate_all df (c₁ ++ c₂) vs).1 = .ok r →
      (validate_all df (c₁ ++ (m, specm) :: c₂) vs).1 =
        .ok ⟨r.primary_keys,
             r.columns.take c₁.length ++
               (m, (⟨false, [Issue.columnMissing m]⟩ : CheckResult)) ::
                 r.columns.drop c₁.length,
             r.nulls, r.finite_numbers⟩) := by
  obtain ⟨hd2, hderr, hdok⟩ := colsPure_skip df c₁ c₂ m specm habs
  unfold validate_all
  rcases hP : validate_primary_keys df vs with ⟨pe, pd⟩
  cases pe with
  | error e =>
    dsimp only
    exact ⟨rfl, fun e' he => he, fun r hr => by cases hr⟩
  | ok pk =>
    dsimp only
    rw [validate_nulls_skip df c₁ c₂ m specm pd habs]
    rw [columnsLoop_eq, columnsLoop_eq]
    rcases hw : (colsPure df (c₁ ++ c₂)).1 with ew | aw
    · have h1 := hderr ew hw
      simp only [hw, h1, hd2]
      dsimp only [Except.map]
      refine ⟨?_, ?_, ?_⟩
      · trivial
      · intro e' he
        exact he
      · intro r hr
        cases hr
    · have h1 := hdok aw hw
      simp only [hw, h1, hd2]
      dsimp only [Except.map]
      refine ⟨?_, ?_, ?_⟩
      · trivial
      · intro e' he
        cases he
      · intro r hr
        injection hr with hr'
        rw [← hr']
        simp


def dfC6 : DataFrame :=
  ⟨1, [("Session_ID", ⟨"int64", [some (.num 1)]⟩), ("Day", ⟨"int64", [some (.num 1)]⟩)]⟩

theorem validate_all_missing_column_witness :
    (validate_all dfC6 [("ghost", { dtype := some "int" })] []).2 =
      (validate_all dfC6 [] []).2 ∧
    (validate_all dfC6 [("ghost", { dtype := some "int" })] []).1 =
      .ok ⟨⟨true, [Issue.pkGlobalOk, Issue.pkWithinDayOk]⟩,
           [("ghost", ⟨false, [Issue.columnMissing "ghost"]⟩)],
           ⟨true, [], []⟩, ⟨true, [Issue.allFinite]⟩⟩ := by
  have h := validate_all_missing_column dfC6 [] [] "ghost" { dtype := some "int" } [] (by decide)
  refine ⟨h.1, ?_⟩
  have hc := h.2.2 ⟨⟨true, [Issue.pkGlobalOk, Issue.pkWithinDayOk]⟩, [],
    ⟨true, [], []⟩, ⟨true, [Issue.allFinite]⟩⟩ (by decide)
  simpa using hc

end SchemaValidator
